import Mathlib

/-!
Verification of the GameTrc frontend (`src/main.js`) against its
natural-language specification.

The JavaScript source is shallowly embedded: each relevant function is
translated into an executable Lean definition, and the spec's claims are
stated and proved (or refuted) about those definitions.  JS strings become
`String`, JS numbers become `Rat` (none of the verified properties depend
on float rounding), and the JS `null`/value duality becomes `Option`.
External collaborators (`convertFileSrc` from Tauri, `parseFloat` /
`parseInt` on free-text inputs) are abstracted as function parameters.
-/

namespace GameTrc

/-- A game record as received from the backend and held in `state.games`
(`main.js` uses exactly these fields of the objects returned by
`search_games`). Optional fields are `Option`, mirroring JS `null`. -/
structure Game where
  id : Int
  title : String
  franchise : Option String
  sequence_in_franchise : Option Int
  platform : String
  release_date : Option String
  developer : Option String
  publisher : Option String
  status : String
  progress_percent : Option Rat
  playtime_hours : Option Rat
  rating : Option Rat
  notes : Option String
  cover_art_path : Option String
  screenshots : List String
  genres : List String
  created_at : Int
  updated_at : Int
  deriving DecidableEq, Repr

/-- JS `s || null` on a string: `""` is the only falsy string, so the
result is `null` exactly on the empty string and the string otherwise. -/
def strOrNull (s : String) : Option String :=
  if s = "" then none else some s

/-- JS `s.startsWith(pre)`, defined over the character lists so that it
computes inside the kernel; it has the same semantics as the library
prefix test on strings. -/
def strStartsWith (s pre : String) : Bool :=
  pre.data.isPrefixOf s.data

/-- JS `s.trim()`: drop whitespace from both ends, defined over the
character lists so that it computes inside the kernel. -/
def strTrim (s : String) : String :=
  String.mk
    (((s.data.dropWhile Char.isWhitespace).reverse.dropWhile
        Char.isWhitespace).reverse)

/-- The `currentFilter` sub-record of the frontend `state` object
(`main.js` lines 32-35): five string-valued predicates (empty string
meaning "no constraint") plus the sort configuration. -/
structure CurrentFilter where
  query : String
  status : String
  platform : String
  franchise : String
  genre : String
  sortBy : String
  sortAsc : Bool
  deriving DecidableEq, Repr

/-- The filter object handed to the `search_games` IPC command: each
predicate is optional (`null` = no constraint), sort fields are always
present. -/
structure SearchFilter where
  query : Option String
  status : Option String
  platform : Option String
  franchise : Option String
  genre : Option String
  sort_by : String
  sort_asc : Bool
  deriving DecidableEq, Repr

/-- The filter object built by `loadGames` (`main.js` lines 108-117):
`f.query || null`, ..., `sort_by: f.sortBy`, `sort_asc: f.sortAsc`. -/
def loadGamesFilter (f : CurrentFilter) : SearchFilter :=
  { query := strOrNull f.query
    status := strOrNull f.status
    platform := strOrNull f.platform
    franchise := strOrNull f.franchise
    genre := strOrNull f.genre
    sort_by := f.sortBy
    sort_asc := f.sortAsc }

/-- The six enumerated status values of the data model. -/
def gameStatuses : List String :=
  ["NotStarted", "Playing", "Completed", "Dropped", "Backlog", "Wishlist"]

/-- The property names an object literal inherits from
`Object.prototype`: a JS lookup `{...}[key]` on a literal without an own
property `key` still finds these on the prototype chain, and they are
functions or objects, never `null`/`undefined`, so `??` does not fall
back on them. -/
def objectProtoKeys : List String :=
  ["constructor", "hasOwnProperty", "isPrototypeOf", "propertyIsEnumerable",
   "toLocaleString", "toString", "valueOf", "__proto__",
   "__defineGetter__", "__defineSetter__", "__lookupGetter__",
   "__lookupSetter__"]

/-- The value a JS object-literal lookup with string own-properties can
produce: a string (an own property, or the `??` fallback, or the key
itself), or a member inherited from `Object.prototype` (a function or
object, identified here by its property name). -/
inductive JsValue where
  | str (s : String)
  | protoMember (name : String)
  deriving DecidableEq, Repr

/-- `statusClass` (`main.js` lines 52-58): a JS object-literal lookup
keyed by the status string with `?? "status--notstarted"`.  Own
properties (the six statuses) win; a key inherited from
`Object.prototype` yields the inherited member, which `??` keeps; only a
key found nowhere on the chain gives `undefined` and hence the
fallback. -/
def statusClass (status : String) : JsValue :=
  if status = "Playing" then JsValue.str "status--playing"
  else if status = "Completed" then JsValue.str "status--completed"
  else if status = "Dropped" then JsValue.str "status--dropped"
  else if status = "Backlog" then JsValue.str "status--backlog"
  else if status = "Wishlist" then JsValue.str "status--wishlist"
  else if status = "NotStarted" then JsValue.str "status--notstarted"
  else if status ∈ objectProtoKeys then JsValue.protoMember status
  else JsValue.str "status--notstarted"

/-- `statusLabel` (`main.js` lines 60-65): object-literal lookup with
`?? status` as fallback, with the same prototype-chain semantics as
`statusClass`: a key inherited from `Object.prototype` yields the
inherited member; any other unrecognized string is returned unchanged. -/
def statusLabel (status : String) : JsValue :=
  if status = "NotStarted" then JsValue.str "Not Started"
  else if status = "Playing" then JsValue.str "Playing"
  else if status = "Completed" then JsValue.str "Completed"
  else if status = "Dropped" then JsValue.str "Dropped"
  else if status = "Backlog" then JsValue.str "Backlog"
  else if status = "Wishlist" then JsValue.str "Wishlist"
  else if status ∈ objectProtoKeys then JsValue.protoMember status
  else JsValue.str status

/-- `resolveCover` (`main.js` lines 75-81).  `path` is `Option String`
because callers may pass a `null` cover path; JS `!path` is true exactly
for `null`/`undefined` and the empty string.  `convertFileSrc` is Tauri's
asset-protocol conversion, an external collaborator, so it is a function
parameter here. -/
def resolveCover (convertFileSrc : String → String) (path : Option String) :
    Option String :=
  match path with
  | none => none
  | some p =>
      if p = "" then none
      else if strStartsWith p "http://" || strStartsWith p "https://" then some p
      else some (convertFileSrc p)

/-- The form fields read by the submit handler (`main.js` lines 722-741),
together with the pieces of `state` it consults (`formRating`,
`formGenres`, the active status-picker option).  Free-text inputs are
strings; the progress slider is a range input whose value is always a
numeric string, modelled directly as the number `parseFloat` recovers
from it. -/
structure FormState where
  f_title : String
  f_franchise : String
  f_sequence : String
  f_release_date : String
  f_platform : String
  activeStatus : Option String
  f_progress : Rat
  f_playtime : String
  formRating : Option Rat
  f_notes : String
  f_cover_art_path : String
  f_developer : String
  f_publisher : String
  formGenres : List String
  deriving DecidableEq, Repr

/-- The `input` object sent to `add_game` / `update_game`
(`main.js` lines 725-741). -/
structure GameInput where
  title : String
  franchise : Option String
  sequence_in_franchise : Option Int
  release_date : Option String
  platform : String
  status : String
  progress_percent : Option Rat
  playtime_hours : Option Rat
  rating : Option Rat
  notes : Option String
  cover_art_path : Option String
  screenshots : List String
  developer : Option String
  publisher : Option String
  genres : List String
  deriving DecidableEq, Repr

/-- The `input` object literal built by the form submit handler
(`main.js` lines 724-741).  `parseFloatF` and `parseIntF` abstract the JS
numeric parsers applied to free-text fields; the status is the active
status-picker option's `dataset.val` with `?? "NotStarted"`. -/
def buildInput (parseFloatF : String → Rat) (parseIntF : String → Int)
    (fs : FormState) : GameInput :=
  { title := strTrim fs.f_title
    franchise := strOrNull (strTrim fs.f_franchise)
    sequence_in_franchise :=
      if fs.f_sequence = "" then none else some (parseIntF fs.f_sequence)
    release_date := strOrNull fs.f_release_date
    platform := strTrim fs.f_platform
    status := fs.activeStatus.getD "NotStarted"
    progress_percent := some fs.f_progress
    playtime_hours :=
      if fs.f_playtime = "" then none else some (parseFloatF fs.f_playtime)
    rating := fs.formRating
    notes := strOrNull (strTrim fs.f_notes)
    cover_art_path := strOrNull fs.f_cover_art_path
    screenshots := []
    developer := strOrNull (strTrim fs.f_developer)
    publisher := strOrNull (strTrim fs.f_publisher)
    genres := fs.formGenres }

/-- Modelled from the spec: the form markup (`index.html`) is not under
`src/`, so the HTML default value of the `f_progress` range slider after
`form.reset()` is not in the sources.  `openModal` (`main.js` line 501)
resets the progress label to `0%` for a new game, matching a default of
0, and the spec gives `progress_percent` the range [0,100] with no other
default. -/
def resetSliderDefault : Rat := 0

/-- The value the `f_progress` slider holds after `openModal`
(`main.js` lines 488-525): `form.reset()` restores the HTML default for a
new game (`editingGameId = null`); for an edit it is set to
`game.progress_percent ?? 0` (line 524). -/
def openModalProgress (editing : Option Game) : Rat :=
  match editing with
  | none => resetSliderDefault
  | some game => game.progress_percent.getD 0

/-- The events that can change `state.formGenres` while the modal is
open: a keydown committing the genre input (Enter or comma,
`main.js` lines 617-627) and a click on a tag's remove button
(`main.js` lines 609-614). -/
inductive GenreEvent where
  | keydownAdd (inputValue : String)
  | removeTag (genre : String)
  deriving DecidableEq, Repr

/-- One `state.formGenres` transition (`main.js` lines 609-614 and
617-627): the trimmed input is appended only when non-empty and not
already included; removal keeps the entries different from the removed
value. -/
def genreStep (genres : List String) : GenreEvent → List String
  | GenreEvent.keydownAdd inputValue =>
      let val := strTrim inputValue
      if val ≠ "" ∧ val ∉ genres then genres ++ [val] else genres
  | GenreEvent.removeTag g => genres.filter (fun x => x ≠ g)

/-- The secondary view-level filter of `renderGames`
(`main.js` lines 152-154): two successive `if` statements on
`state.activeView`. -/
def displayedGames (activeView : String) (games : List Game) : List Game :=
  let games1 :=
    if activeView = "backlog" then games.filter (fun g => g.status = "Backlog")
    else games
  if activeView = "wishlist" then games1.filter (fun g => g.status = "Wishlist")
  else games1

/-- The `gameCount` text set by `renderGames` (`main.js` line 156). -/
def gameCountText (games : List Game) : String :=
  toString games.length ++ " game" ++ (if games.length ≠ 1 then "s" else "")

/-- The observable output of `renderGames` relevant to the claims: the
list of games rendered into the grid and the count text. -/
structure RenderGamesView where
  displayed : List Game
  countText : String
  deriving DecidableEq, Repr

/-- `renderGames` (`main.js` lines 146-182), restricted to its observable
data: it renders exactly `displayedGames` and shows its length. -/
def renderGames (activeView : String) (games : List Game) : RenderGamesView :=
  let d := displayedGames activeView games
  { displayed := d, countText := gameCountText d }

/-- The `by_status` object of a `Stats` value: one count per each of the
six status values, all six fields always present by construction. -/
structure ByStatus where
  playing : Nat
  completed : Nat
  backlog : Nat
  wishlist : Nat
  dropped : Nat
  not_started : Nat
  deriving DecidableEq, Repr

/-- Modelled from the spec: the Rust `get_stats` command is not under
`src/`.  Per §4.3 of the spec, `by_status` holds a count per each of the
six status values, zero-filled when no game has that status. -/
def computeByStatus (games : List Game) : ByStatus :=
  { playing := (games.filter (fun g => g.status = "Playing")).length
    completed := (games.filter (fun g => g.status = "Completed")).length
    backlog := (games.filter (fun g => g.status = "Backlog")).length
    wishlist := (games.filter (fun g => g.status = "Wishlist")).length
    dropped := (games.filter (fun g => g.status = "Dropped")).length
    not_started := (games.filter (fun g => g.status = "NotStarted")).length }

/-- The six status breakdown rows rendered by `renderStats`
(`main.js` lines 434-441): label paired with the displayed count, in
source order. -/
def statusBreakdownRows (b : ByStatus) : List (String × Nat) :=
  [("Playing", b.playing), ("Completed", b.completed),
   ("Backlog", b.backlog), ("Wishlist", b.wishlist),
   ("Dropped", b.dropped), ("Not Started", b.not_started)]

/-- User-visible side effects of the frontend helpers. -/
inductive Effect where
  | consoleError (msg : String)
  | showToast (msg : String) (kind : String)
  deriving DecidableEq, Repr

/-- The slice of frontend `state` that `loadGames` mutates. -/
structure AppState where
  games : List Game
  deriving DecidableEq, Repr

/-- `loadGames` (`main.js` lines 105-124): on success the resolved list
replaces `state.games`; on rejection of the `search_games` call the
handler logs the error, shows an error toast, and sets `state.games` to
the empty list. -/
def loadGames (result : Except String (List Game)) (s : AppState) :
    AppState × List Effect :=
  match result with
  | Except.ok gs => ({ s with games := gs }, [])
  | Except.error _ =>
      ({ s with games := [] },
       [Effect.consoleError "search_games failed:",
        Effect.showToast "Failed to load games" "error"])

/-- A concrete form state (empty modal, no status option active) used to
instantiate the form-submission theorems at a closed input. -/
def sampleForm : FormState :=
  { f_title := " Hollow Knight "
    f_franchise := ""
    f_sequence := ""
    f_release_date := ""
    f_platform := "PC"
    activeStatus := none
    f_progress := 0
    f_playtime := ""
    formRating := none
    f_notes := ""
    f_cover_art_path := ""
    f_developer := ""
    f_publisher := ""
    formGenres := [] }

/-- Modelled from the spec: the Rust `update_game` command is not under
`src/`.  Per §4.1 of the spec, `update(id, input)` replaces all mutable
fields wholesale with `input`'s values (full-replace, not merge), keeps
`id` and `created_at`, sets `updated_at = now`, and replaces the genre
set. -/
def updateGame (g : Game) (input : GameInput) (now : Int) : Game :=
  { id := g.id
    title := input.title
    franchise := input.franchise
    sequence_in_franchise := input.sequence_in_franchise
    platform := input.platform
    release_date := input.release_date
    developer := input.developer
    publisher := input.publisher
    status := input.status
    progress_percent := input.progress_percent
    playtime_hours := input.playtime_hours
    rating := input.rating
    notes := input.notes
    cover_art_path := input.cover_art_path
    screenshots := input.screenshots
    genres := input.genres
    created_at := g.created_at
    updated_at := now }

end GameTrc

open GameTrc

/-- C1: the filter passed to `search_games` by `loadGames` carries `null`
in each of `query`, `status`, `platform`, `franchise`, `genre` exactly
when the corresponding `currentFilter` field is the empty string, carries
the field's value unchanged otherwise, and always carries `sort_by` and
`sort_asc`. -/
theorem loadGamesFilter_nullifies_exactly_empty (f : CurrentFilter) :
    ((loadGamesFilter f).query = none ↔ f.query = "") ∧
    (f.query ≠ "" → (loadGamesFilter f).query = some f.query) ∧
    ((loadGamesFilter f).status = none ↔ f.status = "") ∧
    (f.status ≠ "" → (loadGamesFilter f).status = some f.status) ∧
    ((loadGamesFilter f).platform = none ↔ f.platform = "") ∧
    (f.platform ≠ "" → (loadGamesFilter f).platform = some f.platform) ∧
    ((loadGamesFilter f).franchise = none ↔ f.franchise = "") ∧
    (f.franchise ≠ "" → (loadGamesFilter f).franchise = some f.franchise) ∧
    ((loadGamesFilter f).genre = none ↔ f.genre = "") ∧
    (f.genre ≠ "" → (loadGamesFilter f).genre = some f.genre) ∧
    (loadGamesFilter f).sort_by = f.sortBy ∧
    (loadGamesFilter f).sort_asc = f.sortAsc := by
  unfold loadGamesFilter strOrNull
  refine ⟨?_, ?_, ?_, ?_, ?_, ?_, ?_, ?_, ?_, ?_, rfl, rfl⟩ <;>
    · simp only []
      split <;> simp_all

/-- C1 witness: a concrete filter with a non-empty query and empty status
is translated to `some "zelda"` in `query` and `null` in `status`. -/
theorem loadGamesFilter_nullifies_exactly_empty_witness :
    (loadGamesFilter
        { query := "zelda", status := "", platform := "", franchise := ""
          genre := "", sortBy := "UpdatedAt", sortAsc := false }).query
      = some "zelda" :=
  (loadGamesFilter_nullifies_exactly_empty
      { query := "zelda", status := "", platform := "", franchise := ""
        genre := "", sortBy := "UpdatedAt", sortAsc := false }).2.1
    (by decide)

/-- C2: `update(id, input)` replaces all mutable fields wholesale with
`input`'s values — each field of the updated game equals the
corresponding input field regardless of the previous record, so a field
absent (null/empty) in `input` is cleared, not merged — and since every
submission of the game form sends `screenshots = []`, saving an edit
through the form clears the game's previously stored screenshots. -/
theorem updateGame_full_replace_clears_screenshots
    (parseFloatF : String → Rat) (parseIntF : String → Int) (fs : FormState)
    (g : Game) (input : GameInput) (now : Int) :
    (updateGame g input now).title = input.title ∧
    (updateGame g input now).franchise = input.franchise ∧
    (updateGame g input now).sequence_in_franchise
      = input.sequence_in_franchise ∧
    (updateGame g input now).platform = input.platform ∧
    (updateGame g input now).release_date = input.release_date ∧
    (updateGame g input now).developer = input.developer ∧
    (updateGame g input now).publisher = input.publisher ∧
    (updateGame g input now).status = input.status ∧
    (updateGame g input now).progress_percent = input.progress_percent ∧
    (updateGame g input now).playtime_hours = input.playtime_hours ∧
    (updateGame g input now).rating = input.rating ∧
    (updateGame g input now).notes = input.notes ∧
    (updateGame g input now).cover_art_path = input.cover_art_path ∧
    (updateGame g input now).screenshots = input.screenshots ∧
    (updateGame g input now).genres = input.genres ∧
    (updateGame g input now).updated_at = now ∧
    (updateGame g input now).id = g.id ∧
    (buildInput parseFloatF parseIntF fs).screenshots = [] ∧
    (updateGame g (buildInput parseFloatF parseIntF fs) now).screenshots
      = [] :=
  ⟨rfl, rfl, rfl, rfl, rfl, rfl, rfl, rfl, rfl, rfl, rfl, rfl, rfl, rfl,
   rfl, rfl, rfl, rfl, rfl⟩

/-- C3 counterexample: the claim says an unrecognized status string is
refused rather than normalized or passed through, but at the concrete
unrecognized input "Bogus" the code normalizes it for the badge class
(`statusClass` returns "status--notstarted") and passes it through for
the label (`statusLabel` returns "Bogus" itself). -/
theorem unrecognized_status_not_rejected_counterexample :
    "Bogus" ∉ gameStatuses ∧
    statusClass "Bogus" = JsValue.str "status--notstarted" ∧
    statusLabel "Bogus" = JsValue.str "Bogus" := by
  refine ⟨by decide, by decide, by decide⟩

/-- C3 (amended): unrecognized status values are never rejected at the
display boundary.  For a status string outside the six enumerated values
that is not a property name inherited from `Object.prototype`,
`statusClass` normalizes it to "status--notstarted" and `statusLabel`
propagates the string unchanged; for an inherited property name (such as
"toString") both lookups return the inherited prototype member rather
than a rejection. -/
theorem unrecognized_status_normalized_or_propagated
    (s : String) (h : s ∉ gameStatuses) :
    (s ∉ objectProtoKeys →
      statusClass s = JsValue.str "status--notstarted" ∧
      statusLabel s = JsValue.str s) ∧
    (s ∈ objectProtoKeys →
      statusClass s = JsValue.protoMember s ∧
      statusLabel s = JsValue.protoMember s) := by
  simp only [gameStatuses, List.mem_cons, List.not_mem_nil, or_false,
    not_or] at h
  obtain ⟨h1, h2, h3, h4, h5, h6⟩ := h
  constructor
  · intro hp
    constructor
    · simp [statusClass, h1, h2, h3, h4, h5, h6, hp]
    · simp [statusLabel, h1, h2, h3, h4, h5, h6, hp]
  · intro hp
    constructor
    · simp [statusClass, h1, h2, h3, h4, h5, h6, hp]
    · simp [statusLabel, h1, h2, h3, h4, h5, h6, hp]

/-- C3 witness: the amended claim at the concrete unrecognized inputs
"Foo" (not on the prototype chain: fallback and pass-through) and
"toString" (inherited from `Object.prototype`: the inherited member is
returned by both lookups). -/
theorem unrecognized_status_normalized_or_propagated_witness :
    ("Foo" ∉ gameStatuses ∧
      statusClass "Foo" = JsValue.str "status--notstarted" ∧
      statusLabel "Foo" = JsValue.str "Foo") ∧
    ("toString" ∉ gameStatuses ∧
      statusClass "toString" = JsValue.protoMember "toString" ∧
      statusLabel "toString" = JsValue.protoMember "toString") :=
  ⟨⟨by decide,
    (unrecognized_status_normalized_or_propagated "Foo" (by decide)).1
      (by decide)⟩,
   ⟨by decide,
    (unrecognized_status_normalized_or_propagated "toString" (by decide)).2
      (by decide)⟩⟩

/-- C4: `resolveCover` returns null for an absent or empty path, returns
the path unchanged exactly when it starts with "http://" or "https://"
(given that the asset-protocol conversion actually changes the string),
and otherwise returns `convertFileSrc` applied to the path. -/
theorem resolveCover_resolves_at_presentation
    (convertFileSrc : String → String) (p : String)
    (hp : p ≠ "") (hc : convertFileSrc p ≠ p) :
    resolveCover convertFileSrc none = none ∧
    resolveCover convertFileSrc (some "") = none ∧
    (resolveCover convertFileSrc (some p) = some p ↔
      (strStartsWith p "http://" || strStartsWith p "https://") = true) ∧
    ((strStartsWith p "http://" || strStartsWith p "https://") = false →
      resolveCover convertFileSrc (some p) = some (convertFileSrc p)) := by
  refine ⟨rfl, rfl, ?_, ?_⟩
  · simp only [resolveCover]
    rw [if_neg hp]
    by_cases hb : (strStartsWith p "http://" || strStartsWith p "https://")
      = true
    · simp [hb]
    · simp only [Bool.not_eq_true] at hb
      simp [hb, hc]
  · intro hb
    simp only [resolveCover]
    rw [if_neg hp]
    simp [hb]

/-- C4 witness: a local path is converted (not returned unchanged) and a
remote URL is returned unchanged, at concrete inputs. -/
theorem resolveCover_resolves_at_presentation_witness :
    ("/home/user/cover.png" ≠ "" ∧
      (fun s => String.append "asset://localhost/" s) "/home/user/cover.png"
        ≠ "/home/user/cover.png") ∧
    resolveCover (fun s => String.append "asset://localhost/" s)
        (some "/home/user/cover.png")
      = some (String.append "asset://localhost/" "/home/user/cover.png") :=
  ⟨⟨by decide, by decide⟩,
   (resolveCover_resolves_at_presentation
       (fun s => String.append "asset://localhost/" s) "/home/user/cover.png"
       (by decide) (by decide)).2.2.2 (by decide)⟩

/-- Helper for C5: one form-genre event preserves freedom from
duplicates. -/
theorem genreStep_nodup (genres : List String) (e : GenreEvent)
    (h : genres.Nodup) : (genreStep genres e).Nodup := by
  cases e with
  | keydownAdd inputValue =>
      simp only [genreStep]
      split
      · rename_i hcond
        rw [List.nodup_append]
        exact ⟨h, List.nodup_singleton _,
          by simpa [List.disjoint_singleton] using hcond.2⟩
      · exact h
  | removeTag g => exact h.filter _

/-- C5: for every sequence of genre-tag additions and removals,
`state.formGenres` remains duplicate-free whenever the initial list
(empty, or the loaded game's genres) was duplicate-free. -/
theorem formGenres_nodup (init : List String) (events : List GenreEvent)
    (h : init.Nodup) : (events.foldl genreStep init).Nodup := by
  induction events generalizing init with
  | nil => exact h
  | cons e es ih => exact ih _ (genreStep_nodup _ _ h)

/-- C5 witness: a concrete event sequence that tries to add "RPG" twice
(once with surrounding whitespace), adds "Indie", and removes "RPG",
starting from the empty list. -/
theorem formGenres_nodup_witness :
    ([] : List String).Nodup ∧
    (([GenreEvent.keydownAdd " RPG ", GenreEvent.keydownAdd "RPG",
        GenreEvent.keydownAdd "Indie",
        GenreEvent.removeTag "RPG"]).foldl genreStep []).Nodup :=
  ⟨by decide, formGenres_nodup [] _ (by decide)⟩

/-- C6: when no status-picker option is active the submitted status is
"NotStarted", and when an option is active the submitted status is that
option's value. -/
theorem submitted_status_defaults_notstarted
    (parseFloatF : String → Rat) (parseIntF : String → Int)
    (fs : FormState) :
    (fs.activeStatus = none →
      (buildInput parseFloatF parseIntF fs).status = "NotStarted") ∧
    (∀ v, fs.activeStatus = some v →
      (buildInput parseFloatF parseIntF fs).status = v) := by
  constructor
  · intro h
    simp [buildInput, h]
  · intro v h
    simp [buildInput, h]

/-- C6 witness: the concrete empty form (no active status option)
submits status "NotStarted". -/
theorem submitted_status_defaults_notstarted_witness :
    (buildInput (fun _ => 0) (fun _ => 0) sampleForm).status
      = "NotStarted" :=
  (submitted_status_defaults_notstarted (fun _ => 0) (fun _ => 0)
      sampleForm).1 rfl

/-- C7: `by_status` always carries a count for each of the six status
values — the breakdown rendered by `renderStats` has exactly six rows,
one per status, each showing the number of games with that status, and
on the empty collection all six rows are present with count zero. -/
theorem by_status_always_six_counts (games : List Game) :
    statusBreakdownRows (computeByStatus games) =
      [("Playing", (games.filter (fun g => g.status = "Playing")).length),
       ("Completed",
          (games.filter (fun g => g.status = "Completed")).length),
       ("Backlog", (games.filter (fun g => g.status = "Backlog")).length),
       ("Wishlist",
          (games.filter (fun g => g.status = "Wishlist")).length),
       ("Dropped", (games.filter (fun g => g.status = "Dropped")).length),
       ("Not Started",
          (games.filter (fun g => g.status = "NotStarted")).length)] ∧
    (statusBreakdownRows (computeByStatus games)).length = 6 ∧
    statusBreakdownRows (computeByStatus []) =
      [("Playing", 0), ("Completed", 0), ("Backlog", 0), ("Wishlist", 0),
       ("Dropped", 0), ("Not Started", 0)] :=
  ⟨rfl, rfl, rfl⟩

/-- C8: whenever the `search_games` call rejects, `loadGames` logs the
failure, shows an error toast, and sets `state.games` to the empty list,
so stale results are never kept as if the search had succeeded. -/
theorem loadGames_error_reports_and_clears
    (result : Except String (List Game)) (s : AppState)
    (h : ∃ e, result = Except.error e) :
    (loadGames result s).1.games = [] ∧
    Effect.showToast "Failed to load games" "error"
      ∈ (loadGames result s).2 ∧
    (∃ m, Effect.consoleError m ∈ (loadGames result s).2) := by
  obtain ⟨e, rfl⟩ := h
  refine ⟨rfl, ?_, ⟨"search_games failed:", ?_⟩⟩ <;> simp [loadGames]

/-- C8 witness: a concrete rejected call against a state holding one
stale game clears the list and emits the error toast. -/
theorem loadGames_error_reports_and_clears_witness :
    (loadGames (Except.error "db locked") { games := [] }).1.games = [] ∧
    Effect.showToast "Failed to load games" "error"
      ∈ (loadGames (Except.error "db locked") { games := [] }).2 ∧
    (∃ m, Effect.consoleError m
      ∈ (loadGames (Except.error "db locked") { games := [] }).2) :=
  loadGames_error_reports_and_clears (Except.error "db locked")
    { games := [] } ⟨"db locked", rfl⟩

/-- C9: `renderGames` displays exactly the games with status "Backlog"
in the backlog view, exactly those with status "Wishlist" in the
wishlist view, all of `state.games` in received order in the library
view, and the displayed count is computed from the displayed subset. -/
theorem renderGames_view_level_filter (games : List Game) :
    (renderGames "backlog" games).displayed
      = games.filter (fun g => g.status = "Backlog") ∧
    (renderGames "wishlist" games).displayed
      = games.filter (fun g => g.status = "Wishlist") ∧
    (renderGames "library" games).displayed = games ∧
    (∀ v, (renderGames v games).countText
      = gameCountText (renderGames v games).displayed) := by
  refine ⟨?_, ?_, ?_, fun v => rfl⟩ <;>
    simp [renderGames, displayedGames]

/-- C10: every input built by the game form has a non-null
`progress_percent` equal to the slider's numeric value; the slider holds
0 when the modal opens for a new game, and the stored progress (or 0)
when it opens for an edit. -/
theorem form_progress_never_null
    (parseFloatF : String → Rat) (parseIntF : String → Int)
    (fs : FormState) :
    (buildInput parseFloatF parseIntF fs).progress_percent
      = some fs.f_progress ∧
    (buildInput parseFloatF parseIntF fs).progress_percent ≠ none ∧
    openModalProgress none = 0 ∧
    (∀ g : Game, openModalProgress (some g)
      = g.progress_percent.getD 0) :=
  ⟨rfl, by simp [buildInput], rfl, fun g => rfl⟩
